import Mathlib

/-!
Shallow embedding of `src/game.js` (DecodeSim): a two-player arcade game in
which two robots collect and shoot colored artifacts into goals, with a
rotating 3-element target-pattern bonus, inside a 120-second match.

Modelling conventions:
* JS numbers are modelled as `ℝ` for geometry (positions, velocities,
  angles), as `ℤ` for the integer-valued score and timer fields, and as `ℕ`
  for millisecond timestamps.
* JS object references are modelled by indices: a robot's `inventory` holds
  indices into the global artifact list, and mutations of a shared artifact
  object become `List.set` at that index.
* `Math.random()` is modelled by oracle parameters (`rnd01 : ℕ → ℝ` for the
  spawn coordinates, `Fin 2` triples for `generatePattern`), so every
  possible random outcome is a possible oracle.
* Particles are cosmetic (per the source they have no gameplay effect); a
  particle is modelled by its remaining life (`ℕ`, created at 30 as in
  `new Particle(x, y, color, 4, 30)`); position/color/velocity are dropped.
* DOM writes are modelled only where observable game state is involved: the
  message banner (`message` text and `messageHidden`).
* The timer block of `update` (game.js lines 300-315) reads the undeclared
  identifier `gamestate.timeleft` (lowercase), which in JavaScript throws an
  uncaught `ReferenceError`; moreover a misplaced brace puts the
  `lastTime` update, the timer display and the `endGame` check inside that
  inner `if`.  The step function therefore returns
  `Except GState GState`, where `.error st` is the uncaught exception with
  `st` the state as already mutated at the throw point.
-/

namespace DecodeSim

/-- Artifact type tag: `'purple'` or `'green'` in the source. -/
inductive AType where
  | purple
  | green
deriving DecidableEq, Repr

/-- A team, `'red'` or `'blue'`. -/
inductive Team where
  | red
  | blue
deriving DecidableEq, Repr

/-- 2D vector, `class Vector2` of the source (functional: each in-place
mutating method `add/sub/mult` becomes a function returning the new value;
aliasing of the source is reproduced at use sites). -/
structure Vector2 where
  x : ℝ
  y : ℝ

def Vector2.add (v w : Vector2) : Vector2 := ⟨v.x + w.x, v.y + w.y⟩

def Vector2.sub (v w : Vector2) : Vector2 := ⟨v.x - w.x, v.y - w.y⟩

def Vector2.mult (v : Vector2) (n : ℝ) : Vector2 := ⟨v.x * n, v.y * n⟩

noncomputable def Vector2.mag (v : Vector2) : ℝ := Real.sqrt (v.x * v.x + v.y * v.y)

/-- `normalize()`: no-op when the magnitude is 0. -/
noncomputable def Vector2.normalize (v : Vector2) : Vector2 :=
  if v.mag > 0 then v.mult (1 / v.mag) else v

/-- `dist(v)`: Euclidean distance, `Math.sqrt((x1-x2)^2 + (y1-y2)^2)`. -/
noncomputable def Vector2.dist (v w : Vector2) : ℝ :=
  Real.sqrt ((v.x - w.x) ^ 2 + (v.y - w.y) ^ 2)

-- --- CONSTANTS (game.js lines 5-10) ---

def FIELD_WIDTH : ℝ := 2000
def FIELD_HEIGHT : ℝ := 1400
def ROBOT_SIZE : ℝ := 40
def ARTIFACT_RADIUS : ℝ := 8
def GOAL_SIZE : ℝ := 120
def MAX_INVENTORY : ℕ := 3

/-- `class Artifact`: `holder` (a robot reference in the source) is modelled
by the owning team. -/
structure Artifact where
  pos : Vector2
  vel : Vector2
  type : AType
  held : Bool
  holder : Option Team
  scored : Bool

/-- `new Artifact(x, y, type)`. -/
def Artifact.mk0 (p : Vector2) (t : AType) : Artifact :=
  { pos := p, vel := ⟨0, 0⟩, type := t, held := false, holder := none, scored := false }

/-- Pressed-state of one robot's five logical keys (the source reads
`input[this.controls.up]` etc.; the key-code indirection is dropped). -/
structure Keys where
  up : Bool
  down : Bool
  left : Bool
  right : Bool
  action : Bool

/-- `class Robot`.  `inventory` holds indices into the global artifact list
(the source stores object references into `gameState.artifacts`). -/
structure Robot where
  id : Team
  pos : Vector2
  vel : Vector2
  angle : ℝ
  inventory : List ℕ
  cooldown : ℤ

/-- Whole game state, the source's `gameState` singleton plus the
message banner.  `robots[0]` is the red robot and `robots[1]` the blue one
(initialisation order of the source), modelled as two named fields.
A particle is its remaining life. -/
structure GState where
  running : Bool
  timeLeft : ℤ
  lastTime : ℕ
  redRobot : Robot
  blueRobot : Robot
  artifacts : List Artifact
  particles : List ℕ
  targetPattern : List AType
  redScore : ℤ
  blueScore : ℤ
  redHistory : List AType
  blueHistory : List AType
  message : String
  messageHidden : Bool

/-- The team-indexed history (`gameState[team + 'History']`). -/
def GState.history (st : GState) (team : Team) : List AType :=
  match team with
  | .red => st.redHistory
  | .blue => st.blueHistory

/-- The team-indexed score. -/
def GState.score (st : GState) (team : Team) : ℤ :=
  match team with
  | .red => st.redScore
  | .blue => st.blueScore

/-- `team.toUpperCase()` for the two team tags. -/
def Team.upper : Team → String
  | .red => "RED"
  | .blue => "BLUE"

-- --- SETUP & UTILS ---

/-- `spawnParticles(x, y, color, count)`: pushes `count` particles of life
30 (position/color are cosmetic and not modelled). -/
def spawnParticles (count : ℕ) (ps : List ℕ) : List ℕ :=
  ps ++ List.replicate count 30

/-- One random spawn coordinate pair,
`(Math.random()*(FIELD_WIDTH-200)+100, Math.random()*(FIELD_HEIGHT-200)+100)`;
`rnd01 k` is the k-th value drawn from `Math.random()`. -/
def spawnPos (rnd01 : ℕ → ℝ) (i : ℕ) : Vector2 :=
  ⟨rnd01 (2 * i) * (FIELD_WIDTH - 200) + 100,
   rnd01 (2 * i + 1) * (FIELD_HEIGHT - 200) + 100⟩

/-- `spawnArtifacts()`: replaces the collection with 24 purple then 12
green artifacts at random positions. -/
def spawnArtifacts (rnd01 : ℕ → ℝ) : List Artifact :=
  (List.range 24).map (fun i => Artifact.mk0 (spawnPos rnd01 i) AType.purple)
    ++ (List.range 12).map (fun i => Artifact.mk0 (spawnPos rnd01 (24 + i)) AType.green)

/-- One draw of `types[Math.floor(Math.random() * 2)]`
with `types = ['purple', 'green']`. -/
def typesPick (r : Fin 2) : AType :=
  if r.val = 0 then AType.purple else AType.green

/-- The three random draws consumed by one `generatePattern()` call. -/
def RndPat : Type := Fin 2 × Fin 2 × Fin 2

/-- `generatePattern()`: three independent uniform draws from
`{'purple','green'}` (the DOM pattern-indicator update is not modelled). -/
def genPattern (r : RndPat) : List AType :=
  [typesPick r.1, typesPick r.2.1, typesPick r.2.2]

-- --- SCORING & PATTERN (game.js lines 364-421) ---

/-- The comparison loop of `checkPattern`:
`for i in 0..2 { if (history[i] !== target[i]) match = false }`
(an out-of-range JS index reads `undefined`, i.e. `none`). -/
def patMatch (history target : List AType) : Bool :=
  decide (history.get? 0 = target.get? 0)
    && decide (history.get? 1 = target.get? 1)
    && decide (history.get? 2 = target.get? 2)

/-- `checkPattern(team)` (game.js lines 385-421).  `pat` is the oracle for
the `generatePattern()` call made on a full match.  The `setTimeout` hiding
the banner after 2000ms is outside the simulation step and is not
modelled. -/
def checkPattern (team : Team) (pat : RndPat) (st : GState) : GState :=
  let history := st.history team
  let target := st.targetPattern
  if history.length < 3 then st
  else if patMatch history target then
    let st1 :=
      match team with
      | .red => { st with redScore := st.redScore + 20 }
      | .blue => { st with blueScore := st.blueScore + 20 }
    let st2 := { st1 with
      message := Team.upper team ++ " MATCHED PATTERN (+30)!",
      messageHidden := false }
    let st3 := { st2 with targetPattern := genPattern pat }
    { st3 with redHistory := [], blueHistory := [] }
  else st

/-- `scoreArtifact(team, artifact)` (game.js lines 364-383), the artifact
passed by its index into `gameState.artifacts` (the source passes the
object reference; an index outside the list is unreachable from the
callers and leaves the state unchanged).  The score-display DOM writes are
not modelled. -/
def scoreArtifact (team : Team) (i : ℕ) (pat : RndPat) (st : GState) : GState :=
  match st.artifacts.get? i with
  | none => st
  | some a =>
    let st1 := { st with
      artifacts := st.artifacts.set i { a with scored := true },
      particles := spawnParticles 20 st.particles }
    let points : ℤ := if a.type = AType.purple then 5 else 10
    match team with
    | .red =>
      let h1 := st1.redHistory ++ [a.type]
      let h2 := if h1.length > 3 then h1.tail else h1
      checkPattern .red pat { st1 with redScore := st1.redScore + points, redHistory := h2 }
    | .blue =>
      let h1 := st1.blueHistory ++ [a.type]
      let h2 := if h1.length > 3 then h1.tail else h1
      checkPattern .blue pat { st1 with blueScore := st1.blueScore + points, blueHistory := h2 }

-- --- MATCH LIFECYCLE (game.js lines 485-513) ---

/-- `startGame()` (game.js lines 485-505): `now` is `Date.now()`, `rnd01`
the coordinate oracle for `spawnArtifacts()`, `pat` the oracle for
`generatePattern()`.  The robots keep their velocity, heading and cooldown:
the source only resets `pos` and `inventory`. -/
noncomputable def startGame (now : ℕ) (rnd01 : ℕ → ℝ) (pat : RndPat) (st : GState) : GState :=
  { st with
    running := true,
    timeLeft := 120,
    lastTime := now,
    redScore := 0,
    blueScore := 0,
    messageHidden := true,
    artifacts := spawnArtifacts rnd01,
    targetPattern := genPattern pat,
    redRobot := { st.redRobot with pos := ⟨100, FIELD_HEIGHT / 2⟩, inventory := [] },
    blueRobot := { st.blueRobot with pos := ⟨FIELD_WIDTH - 100, FIELD_HEIGHT / 2⟩, inventory := [] },
    redHistory := [],
    blueHistory := [] }

/-- `endGame()` (game.js lines 507-513). -/
def endGame (st : GState) : GState :=
  let winner : String :=
    if st.redScore > st.blueScore then "RED WINS"
    else if st.blueScore > st.redScore then "BLUE WINS"
    else "TIE"
  { st with
    running := false,
    message := winner ++ " - PRESS SPACE TO RESTART",
    messageHidden := false }

-- --- TIMER SECTION OF update() (game.js lines 300-315) ---

/-- The `// Time` block of `update()`, embedded literally.  When at least
1000ms have elapsed since `gameState.lastTime`, the source decrements
`gameState.timeLeft` and then evaluates `gamestate.timeleft` — an
UNDECLARED identifier (`gamestate` lowercase does not exist), so an
uncaught `ReferenceError` is thrown and the rest of the frame is aborted:
due to a misplaced brace, the `gameState.lastTime = Date.now()` update, the
timer display and the `if (timeLeft <= 0) endGame()` check all live inside
that inner `if` and are never reached.  `.error st` carries the state as
mutated at the throw point. -/
def updateClock (now : ℕ) (st : GState) : Except GState GState :=
  if 1000 ≤ now - st.lastTime then
    Except.error { st with timeLeft := st.timeLeft - 1 }
  else
    Except.ok st

-- --- ROBOT UPDATE & ACTION (game.js lines 91-150) ---

/-- `Math.atan2(y, x)`, via the complex argument. -/
noncomputable def atan2 (y x : ℝ) : ℝ := Complex.arg ⟨x, y⟩

/-- The scan of `Robot.action`'s intake branch: the first artifact (in
collection order) that is not held, not scored, and within
`ROBOT_SIZE + 20` of the robot; returns its index and value. -/
noncomputable def intakeFind (pos : Vector2) : List Artifact → Option (ℕ × Artifact)
  | [] => none
  | a :: rest =>
    if a.held = false ∧ a.scored = false ∧ pos.dist a.pos < ROBOT_SIZE + 20 then
      some (0, a)
    else
      (intakeFind pos rest).map (fun p => (p.1 + 1, p.2))

/-- `Robot.action()` (game.js lines 121-150): intake first (only when the
inventory has fewer than `MAX_INVENTORY` entries); otherwise shoot the
oldest inventory entry if any, else do nothing.  In the shoot branch the
source's `a.vel = dir.mult(15)` mutates `dir` in place, so the subsequent
recoil `this.vel.sub(dir.copy().mult(0.2))` subtracts the ALREADY-SCALED
vector: `dir15.mult 0.2` below reproduces that aliasing. -/
noncomputable def Robot.action (r : Robot) (arts : List Artifact) (parts : List ℕ) :
    Robot × List Artifact × List ℕ :=
  match (if r.inventory.length < MAX_INVENTORY then intakeFind r.pos arts else none) with
  | some (i, a) =>
    ({ r with inventory := r.inventory ++ [i] },
     arts.set i { a with held := true, holder := some r.id },
     parts)
  | none =>
    match r.inventory with
    | [] => (r, arts, parts)
    | i :: rest =>
      let dir : Vector2 := ⟨Real.cos r.angle, Real.sin r.angle⟩
      -- a.pos = this.pos.copy().add(dir.copy().mult(ROBOT_SIZE + 10)) — dir still unit here
      let newPos := r.pos.add (dir.mult (ROBOT_SIZE + 10))
      -- a.vel = dir.mult(15) — in-place: dir itself is now the scaled vector
      let dir15 := dir.mult 15
      let r2 := { r with inventory := rest, vel := r.vel.sub (dir15.mult 0.2) }
      let arts2 :=
        match arts.get? i with
        | some a => arts.set i { a with held := false, holder := none, pos := newPos, vel := dir15 }
        | none => arts
      (r2, arts2, spawnParticles 5 parts)

/-- The movement/physics part of `Robot.update(input)` (game.js lines
91-111): desired direction from the keys, normalized, scaled by the 0.5
acceleration, added to the velocity; heading set from the post-acceleration
velocity when a movement key is active; 0.92 friction; position
integration; clamp to `[ROBOT_SIZE, FIELD − ROBOT_SIZE]` on both axes. -/
noncomputable def Robot.movePhase (r : Robot) (k : Keys) : Robot :=
  let mv : Vector2 :=
    ⟨(if k.right then 1 else 0) - (if k.left then 1 else 0),
     (if k.down then 1 else 0) - (if k.up then 1 else 0)⟩
  let v1 := if mv.mag > 0 then r.vel.add ((mv.normalize).mult 0.5) else r.vel
  let ang1 := if mv.mag > 0 then atan2 v1.y v1.x else r.angle
  let v2 := v1.mult 0.92
  let p1 := r.pos.add v2
  let p2 : Vector2 :=
    ⟨max ROBOT_SIZE (min (FIELD_WIDTH - ROBOT_SIZE) p1.x),
     max ROBOT_SIZE (min (FIELD_HEIGHT - ROBOT_SIZE) p1.y)⟩
  { r with vel := v2, pos := p2, angle := ang1 }

/-- `if (this.cooldown > 0) this.cooldown--` (game.js line 118). -/
def cooldownTick (r : Robot) : Robot :=
  if r.cooldown > 0 then { r with cooldown := r.cooldown - 1 } else r

/-- The action part of `Robot.update(input)` (game.js lines 113-118):
invoke the intake-or-shoot action and set the 15-frame cooldown when the
action key is pressed and the cooldown has run out, then the per-frame
cooldown decrement. -/
noncomputable def Robot.actionPhase (r : Robot) (k : Keys) (arts : List Artifact)
    (parts : List ℕ) : Robot × List Artifact × List ℕ :=
  if k.action = true ∧ r.cooldown ≤ 0 then
    let res := r.action arts parts
    (cooldownTick { res.1 with cooldown := 15 }, res.2.1, res.2.2)
  else
    (cooldownTick r, arts, parts)

/-- `Robot.update(input)` (game.js lines 91-119). -/
noncomputable def Robot.update (r : Robot) (k : Keys) (arts : List Artifact)
    (parts : List ℕ) : Robot × List Artifact × List ℕ :=
  Robot.actionPhase (r.movePhase k) k arts parts

-- --- ARTIFACT UPDATE & FRAME LOOP (game.js lines 185-362) ---

/-- `Artifact.update()` (game.js lines 195-210): scored or held artifacts
are skipped; otherwise integrate position, apply 0.98 friction, and negate
the velocity component whose position coordinate crossed the boundary
minus/plus the artifact radius. -/
noncomputable def Artifact.update (a : Artifact) : Artifact :=
  if a.scored = true then a
  else if a.held = true then a
  else
    let p1 := a.pos.add a.vel
    let v1 := a.vel.mult 0.98
    let v2x := if p1.x < ARTIFACT_RADIUS ∨ p1.x > FIELD_WIDTH - ARTIFACT_RADIUS then v1.x * (-1) else v1.x
    let v2y := if p1.y < ARTIFACT_RADIUS ∨ p1.y > FIELD_HEIGHT - ARTIFACT_RADIUS then v1.y * (-1) else v1.y
    { a with pos := p1, vel := ⟨v2x, v2y⟩ }

/-- The robot-push check of the frame loop (game.js lines 337-342): when
the robot overlaps the artifact, add a magnitude-2 impulse pointing from
the robot to the artifact. -/
noncomputable def pushFrom (r : Robot) (a : Artifact) : Artifact :=
  if r.pos.dist a.pos < ROBOT_SIZE / 2 + ARTIFACT_RADIUS then
    let pushDir := ((a.pos.sub r.pos)).normalize
    { a with vel := a.vel.add (pushDir.mult 2) }
  else a

/-- `redGoalPos` (game.js line 329). -/
noncomputable def redGoalPos : Vector2 := ⟨50, FIELD_HEIGHT / 2⟩

/-- `blueGoalPos` (game.js line 330). -/
noncomputable def blueGoalPos : Vector2 := ⟨FIELD_WIDTH - 50, FIELD_HEIGHT / 2⟩

/-- The body of the artifact `forEach` of `update()` (game.js lines
332-353) for the artifact at index `i`: skip held or scored artifacts;
otherwise run its physics update, the push from each robot (red first),
and the two goal checks (red goal first).  `pat` is the oracle for the
`generatePattern()` call a scoring may trigger. -/
noncomputable def processOne (pat : RndPat) (i : ℕ) (st : GState) : GState :=
  match st.artifacts.get? i with
  | none => st
  | some a =>
    if a.held = false ∧ a.scored = false then
      let a1 := a.update
      let a2 := pushFrom st.blueRobot (pushFrom st.redRobot a1)
      let st1 := { st with artifacts := st.artifacts.set i a2 }
      if a2.pos.dist redGoalPos < GOAL_SIZE ∧ a2.scored = false then
        scoreArtifact .red i pat st1
      else if a2.pos.dist blueGoalPos < GOAL_SIZE ∧ a2.scored = false then
        scoreArtifact .blue i pat st1
      else st1
    else st

/-- Iterate `processOne` over indices `i, i+1, …` for `n` artifacts. -/
noncomputable def processIter (pats : ℕ → RndPat) : ℕ → ℕ → GState → GState
  | 0, _, st => st
  | n + 1, i, st => processIter pats n (i + 1) (processOne (pats i) i st)

/-- The artifact `forEach` of `update()`: every index of the collection in
order (`scoreArtifact` never changes the collection's length, so the fixed
iteration count is faithful to the JS `forEach`). -/
noncomputable def processArtifacts (pats : ℕ → RndPat) (st : GState) : GState :=
  processIter pats st.artifacts.length 0 st

/-- The particle pass of `update()` (game.js lines 355-359): decrement
every life, drop the dead. -/
def stepParticles (ps : List ℕ) : List ℕ :=
  (ps.map (fun l => l - 1)).filter (fun l => decide (0 < l))

/-- The per-step environment: `Date.now()`, the pressed keys, and the
random oracles (`pats i` feeds the `generatePattern()` call potentially
made while processing artifact `i`; `startPat`/`rnd01` feed a
`startGame()`). -/
structure Env where
  now : ℕ
  space : Bool
  redKeys : Keys
  blueKeys : Keys
  rnd01 : ℕ → ℝ
  pats : ℕ → RndPat
  startPat : RndPat

/-- The rest of a running frame after the timer block (game.js lines
317-361): robot updates (red then blue), the artifact loop, the particle
pass (the inventory-UI DOM write is not modelled). -/
noncomputable def frameRest (env : Env) (st : GState) : GState :=
  let resR := st.redRobot.update env.redKeys st.artifacts st.particles
  let resB := st.blueRobot.update env.blueKeys resR.2.1 resR.2.2
  let st1 := { st with
    redRobot := resR.1, blueRobot := resB.1,
    artifacts := resB.2.1, particles := resB.2.2 }
  let st2 := processArtifacts env.pats st1
  { st2 with particles := stepParticles st2.particles }

/-- One simulation step, `update()` (game.js lines 293-362): when not
running, Space starts a game; otherwise the timer block runs first — and
throws an uncaught `ReferenceError` (see `updateClock`) whenever a second
has elapsed, aborting the whole step with the state as mutated so far. -/
noncomputable def update (env : Env) (st : GState) : Except GState GState :=
  if st.running = false then
    Except.ok (if env.space then startGame env.now env.rnd01 env.startPat st else st)
  else
    match updateClock env.now st with
    | .error e => .error e
    | .ok st1 => .ok (frameRest env st1)

-- --- CONCRETE TEST FIXTURES (used by witnesses and counterexamples) ---

/-- A robot in a neutral state. -/
def testRobot (t : Team) (p : Vector2) : Robot :=
  { id := t, pos := p, vel := ⟨0, 0⟩, angle := 0, inventory := [], cooldown := 0 }

/-- A neutral running game state with no artifacts. -/
def testState : GState :=
  { running := true, timeLeft := 120, lastTime := 0,
    redRobot := testRobot .red ⟨100, 700⟩,
    blueRobot := testRobot .blue ⟨1900, 700⟩,
    artifacts := [], particles := [],
    targetPattern := [AType.purple, AType.green, AType.purple],
    redScore := 0, blueScore := 0, redHistory := [], blueHistory := [],
    message := "", messageHidden := true }

/-- A fixed oracle for one `generatePattern()` call. -/
def patW : RndPat := (0, 1, 0)

-- --- STRUCTURAL LEMMAS ---

theorem action_fst_pos (r : Robot) (arts : List Artifact) (parts : List ℕ) :
    (Robot.action r arts parts).1.pos = r.pos := by
  unfold Robot.action
  rcases h : (if r.inventory.length < MAX_INVENTORY then intakeFind r.pos arts else none) with
    _ | ⟨i, a⟩ <;> simp
  rcases r.inventory with _ | ⟨j, rest⟩ <;> simp

theorem cooldownTick_pos (r : Robot) : (cooldownTick r).pos = r.pos := by
  unfold cooldownTick
  split <;> rfl

theorem actionPhase_fst_pos (r : Robot) (k : Keys) (arts : List Artifact) (parts : List ℕ) :
    (Robot.actionPhase r k arts parts).1.pos = r.pos := by
  unfold Robot.actionPhase
  split
  · simp [cooldownTick_pos, action_fst_pos]
  · simp [cooldownTick_pos]

/-- C8: after a robot's update step its position lies within
`[robotHalfSize, fieldWidth − robotHalfSize] × [robotHalfSize,
fieldHeight − robotHalfSize]` (with `robotHalfSize = ROBOT_SIZE / 2 = 20`
the half of the 40-pixel robot square).  The source clamps to the tighter
`[ROBOT_SIZE, field − ROBOT_SIZE] = [40, field − 40]` on both axes after
every position integration, which contains the clamp inside the claimed
box; no bounce is applied. -/
theorem C8_robot_position_bounded (r : Robot) (k : Keys) (arts : List Artifact)
    (parts : List ℕ) :
    ROBOT_SIZE / 2 ≤ (Robot.update r k arts parts).1.pos.x
    ∧ (Robot.update r k arts parts).1.pos.x ≤ FIELD_WIDTH - ROBOT_SIZE / 2
    ∧ ROBOT_SIZE / 2 ≤ (Robot.update r k arts parts).1.pos.y
    ∧ (Robot.update r k arts parts).1.pos.y ≤ FIELD_HEIGHT - ROBOT_SIZE / 2 := by
  have hpos : (Robot.update r k arts parts).1.pos = (r.movePhase k).pos := by
    unfold Robot.update
    exact actionPhase_fst_pos _ _ _ _
  have hx : (r.movePhase k).pos.x
      = max ROBOT_SIZE (min (FIELD_WIDTH - ROBOT_SIZE) ((r.pos.add ((r.movePhase k).vel)).x)) := by
    unfold Robot.movePhase
    simp
  have hy : (r.movePhase k).pos.y
      = max ROBOT_SIZE (min (FIELD_HEIGHT - ROBOT_SIZE) ((r.pos.add ((r.movePhase k).vel)).y)) := by
    unfold Robot.movePhase
    simp
  rw [hpos]
  refine ⟨?_, ?_, ?_, ?_⟩
  · rw [hx]; unfold ROBOT_SIZE
    calc (40:ℝ)/2 ≤ 40 := by norm_num
    _ ≤ _ := le_max_left _ _
  · rw [hx]; unfold ROBOT_SIZE FIELD_WIDTH
    apply le_trans (max_le (by norm_num) (min_le_left _ _))
    norm_num
  · rw [hy]; unfold ROBOT_SIZE
    calc (40:ℝ)/2 ≤ 40 := by norm_num
    _ ≤ _ := le_max_left _ _
  · rw [hy]; unfold ROBOT_SIZE FIELD_HEIGHT
    apply le_trans (max_le (by norm_num) (min_le_left _ _))
    norm_num

-- --- C10 ---

theorem spawnArtifacts_purple_count (rnd01 : ℕ → ℝ) :
    (spawnArtifacts rnd01).countP (fun a => decide (a.type = AType.purple)) = 24 := by
  unfold spawnArtifacts
  rw [List.countP_append]
  have h1 : ∀ a ∈ (List.range 24).map (fun i => Artifact.mk0 (spawnPos rnd01 i) AType.purple),
      (fun a => decide (a.type = AType.purple)) a = true := by
    intro a ha
    simp only [List.mem_map] at ha
    obtain ⟨i, _, rfl⟩ := ha
    simp [Artifact.mk0]
  have h2 : ((List.range 12).map (fun i => Artifact.mk0 (spawnPos rnd01 (24 + i)) AType.green)).countP
      (fun a => decide (a.type = AType.purple)) = 0 := by
    rw [List.countP_eq_zero]
    intro a ha
    simp only [List.mem_map] at ha
    obtain ⟨i, _, rfl⟩ := ha
    simp [Artifact.mk0]
  rw [List.countP_eq_length.2 h1, h2]
  simp

theorem spawnArtifacts_green_count (rnd01 : ℕ → ℝ) :
    (spawnArtifacts rnd01).countP (fun a => decide (a.type = AType.green)) = 12 := by
  unfold spawnArtifacts
  rw [List.countP_append]
  have h1 : ((List.range 24).map (fun i => Artifact.mk0 (spawnPos rnd01 i) AType.purple)).countP
      (fun a => decide (a.type = AType.green)) = 0 := by
    rw [List.countP_eq_zero]
    intro a ha
    simp only [List.mem_map] at ha
    obtain ⟨i, _, rfl⟩ := ha
    simp [Artifact.mk0]
  have h2 : ∀ a ∈ (List.range 12).map (fun i => Artifact.mk0 (spawnPos rnd01 (24 + i)) AType.green),
      (fun a => decide (a.type = AType.green)) a = true := by
    intro a ha
    simp only [List.mem_map] at ha
    obtain ⟨i, _, rfl⟩ := ha
    simp [Artifact.mk0]
  rw [h1, List.countP_eq_length.2 h2]
  simp

theorem spawnArtifacts_fresh (rnd01 : ℕ → ℝ) :
    ∀ a ∈ spawnArtifacts rnd01,
      a.held = false ∧ a.scored = false ∧ a.holder = none ∧ a.vel = (⟨0, 0⟩ : Vector2) := by
  intro a ha
  unfold spawnArtifacts at ha
  rw [List.mem_append] at ha
  rcases ha with ha | ha <;>
  · simp only [List.mem_map] at ha
    obtain ⟨i, _, rfl⟩ := ha
    exact ⟨rfl, rfl, rfl, rfl⟩

/-- C10: starting (or restarting) a match resets scores to 0/0, timeLeft
to 120, both histories to empty, replaces the artifact collection by 24
purple and 12 green freshly spawned artifacts, regenerates the target
pattern, and places both robots at their fixed start positions with empty
inventories — while each robot's velocity, heading angle and action
cooldown are left untouched and carry over from before the start. -/
theorem C10_startGame_resets (now : ℕ) (rnd01 : ℕ → ℝ) (pat : RndPat) (st : GState) :
    (startGame now rnd01 pat st).running = true
    ∧ (startGame now rnd01 pat st).timeLeft = 120
    ∧ (startGame now rnd01 pat st).lastTime = now
    ∧ (startGame now rnd01 pat st).redScore = 0
    ∧ (startGame now rnd01 pat st).blueScore = 0
    ∧ (startGame now rnd01 pat st).redHistory = []
    ∧ (startGame now rnd01 pat st).blueHistory = []
    ∧ (startGame now rnd01 pat st).artifacts.countP (fun a => decide (a.type = AType.purple)) = 24
    ∧ (startGame now rnd01 pat st).artifacts.countP (fun a => decide (a.type = AType.green)) = 12
    ∧ (∀ a ∈ (startGame now rnd01 pat st).artifacts,
        a.held = false ∧ a.scored = false ∧ a.holder = none ∧ a.vel = (⟨0, 0⟩ : Vector2))
    ∧ (startGame now rnd01 pat st).targetPattern = genPattern pat
    ∧ (startGame now rnd01 pat st).redRobot.pos = (⟨100, FIELD_HEIGHT / 2⟩ : Vector2)
    ∧ (startGame now rnd01 pat st).blueRobot.pos = (⟨FIELD_WIDTH - 100, FIELD_HEIGHT / 2⟩ : Vector2)
    ∧ (startGame now rnd01 pat st).redRobot.inventory = []
    ∧ (startGame now rnd01 pat st).blueRobot.inventory = []
    ∧ (startGame now rnd01 pat st).redRobot.vel = st.redRobot.vel
    ∧ (startGame now rnd01 pat st).redRobot.angle = st.redRobot.angle
    ∧ (startGame now rnd01 pat st).redRobot.cooldown = st.redRobot.cooldown
    ∧ (startGame now rnd01 pat st).blueRobot.vel = st.blueRobot.vel
    ∧ (startGame now rnd01 pat st).blueRobot.angle = st.blueRobot.angle
    ∧ (startGame now rnd01 pat st).blueRobot.cooldown = st.blueRobot.cooldown := by
  refine ⟨rfl, rfl, rfl, rfl, rfl, rfl, rfl, ?_, ?_, ?_, rfl, rfl, rfl, rfl, rfl,
    rfl, rfl, rfl, rfl, rfl, rfl⟩
  · exact spawnArtifacts_purple_count rnd01
  · exact spawnArtifacts_green_count rnd01
  · exact spawnArtifacts_fresh rnd01

-- --- C1 ---

theorem patMatch_false_of_mismatch (h t : List AType) (i : ℕ) (hi : i < 3)
    (hne : h.get? i ≠ t.get? i) : patMatch h t = false := by
  unfold patMatch
  simp only [List.get?_eq_getElem?] at hne
  interval_cases i <;> simp [hne]

theorem patMatch_true_of_all (h t : List AType)
    (hall : ∀ i, i < 3 → h.get? i = t.get? i) : patMatch h t = true := by
  unfold patMatch
  simp only [List.get?_eq_getElem?] at hall
  simp [hall 0 (by norm_num), hall 1 (by norm_num), hall 2 (by norm_num)]

theorem checkPattern_noop_short (team : Team) (pat : RndPat) (st : GState)
    (hlen : (st.history team).length < 3) : checkPattern team pat st = st := by
  unfold checkPattern
  rw [if_pos hlen]

theorem checkPattern_noop_mismatch (team : Team) (pat : RndPat) (st : GState)
    (hlen : ¬ (st.history team).length < 3)
    (hm : patMatch (st.history team) st.targetPattern = false) :
    checkPattern team pat st = st := by
  unfold checkPattern
  rw [if_neg hlen, hm]
  simp

theorem checkPattern_match_eq (team : Team) (pat : RndPat) (st : GState)
    (hlen : ¬ (st.history team).length < 3)
    (hm : patMatch (st.history team) st.targetPattern = true) :
    checkPattern team pat st = { st with
      redScore := st.redScore + (if team = .red then 20 else 0),
      blueScore := st.blueScore + (if team = .blue then 20 else 0),
      message := Team.upper team ++ " MATCHED PATTERN (+30)!",
      messageHidden := false,
      targetPattern := genPattern pat,
      redHistory := [], blueHistory := [] } := by
  unfold checkPattern
  rw [if_neg hlen, hm]
  cases team <;> simp

theorem genPattern_members (pat : RndPat) :
    ∀ x ∈ genPattern pat, x = AType.purple ∨ x = AType.green := by
  intro x hx
  unfold genPattern at hx
  have hp : ∀ r : Fin 2, typesPick r = AType.purple ∨ typesPick r = AType.green := by
    intro r
    unfold typesPick
    split
    · exact Or.inl rfl
    · exact Or.inr rfl
  rcases hx with _ | ⟨_, _ | ⟨_, _ | ⟨_, h⟩⟩⟩
  · exact hp pat.1
  · exact hp pat.2.1
  · exact hp pat.2.2
  · cases h

/-- C1: `checkPattern(team)` has no effect on scores, histories or the
target pattern when the team's history has fewer than 3 entries or when
any of the 3 history entries differs element-wise from the target pattern;
when all 3 entries match, it adds exactly 20 points to that team's score
(and only that team's), generates a new 3-element target pattern with each
element in `{purple, green}`, and clears both teams' histories. -/
theorem C1_checkPattern_behavior (team : Team) (pat : RndPat) (st : GState) :
    ((st.history team).length < 3 → checkPattern team pat st = st)
    ∧ ((st.history team).length = 3 →
        (∃ i, i < 3 ∧ (st.history team).get? i ≠ st.targetPattern.get? i) →
        checkPattern team pat st = st)
    ∧ ((st.history team).length = 3 →
        (∀ i, i < 3 → (st.history team).get? i = st.targetPattern.get? i) →
        (checkPattern team pat st).score team = st.score team + 20
        ∧ (∀ t2, t2 ≠ team → (checkPattern team pat st).score t2 = st.score t2)
        ∧ (checkPattern team pat st).targetPattern = genPattern pat
        ∧ (genPattern pat).length = 3
        ∧ (∀ x ∈ genPattern pat, x = AType.purple ∨ x = AType.green)
        ∧ (checkPattern team pat st).redHistory = []
        ∧ (checkPattern team pat st).blueHistory = []) := by
  refine ⟨fun hlen => checkPattern_noop_short team pat st hlen, ?_, ?_⟩
  · rintro hlen ⟨i, hi, hne⟩
    exact checkPattern_noop_mismatch team pat st (by omega)
      (patMatch_false_of_mismatch _ _ i hi hne)
  · intro hlen hall
    have heq := checkPattern_match_eq team pat st (by omega)
      (patMatch_true_of_all _ _ hall)
    rw [heq]
    refine ⟨?_, ?_, rfl, rfl, genPattern_members pat, rfl, rfl⟩
    · cases team <;> simp [GState.score]
    · intro t2 ht2
      cases team <;> cases t2 <;> simp_all [GState.score]

/-- Concrete state for the C1 witness: red history fully matches the
target pattern. -/
def c1State : GState :=
  { testState with redHistory := [AType.purple, AType.green, AType.purple] }

theorem C1_checkPattern_behavior_witness :
    (checkPattern .red patW c1State).score .red = c1State.score .red + 20
    ∧ (∀ t2, t2 ≠ Team.red → (checkPattern .red patW c1State).score t2 = c1State.score t2)
    ∧ (checkPattern .red patW c1State).targetPattern = genPattern patW
    ∧ (genPattern patW).length = 3
    ∧ (∀ x ∈ genPattern patW, x = AType.purple ∨ x = AType.green)
    ∧ (checkPattern .red patW c1State).redHistory = []
    ∧ (checkPattern .red patW c1State).blueHistory = [] :=
  (C1_checkPattern_behavior .red patW c1State).2.2 (by decide) (by decide)

-- --- C2 ---

theorem checkPattern_frame (team : Team) (pat : RndPat) (st : GState) :
    (checkPattern team pat st).artifacts = st.artifacts
    ∧ (checkPattern team pat st).particles = st.particles
    ∧ (checkPattern team pat st).redRobot = st.redRobot
    ∧ (checkPattern team pat st).blueRobot = st.blueRobot
    ∧ (checkPattern team pat st).running = st.running
    ∧ (checkPattern team pat st).timeLeft = st.timeLeft
    ∧ (checkPattern team pat st).lastTime = st.lastTime := by
  rcases Nat.lt_or_ge (st.history team).length 3 with hl | hl
  · rw [checkPattern_noop_short team pat st hl]
    exact ⟨rfl, rfl, rfl, rfl, rfl, rfl, rfl⟩
  · cases hm : patMatch (st.history team) st.targetPattern
    · rw [checkPattern_noop_mismatch team pat st (by omega) hm]
      exact ⟨rfl, rfl, rfl, rfl, rfl, rfl, rfl⟩
    · rw [checkPattern_match_eq team pat st (by omega) hm]
      exact ⟨rfl, rfl, rfl, rfl, rfl, rfl, rfl⟩

/-- The push-and-cap of the team history
(`push` then `if (len > 3) shift`), for an in-game history of at most 3
entries, equals keeping the 3 most recent entries in order. -/
theorem cappedHistory_eq_drop (h : List AType) (t : AType) (hlen : h.length ≤ 3) :
    (if (h ++ [t]).length > 3 then (h ++ [t]).tail else h ++ [t])
      = (h ++ [t]).drop ((h ++ [t]).length - 3) := by
  rcases Nat.lt_or_ge h.length 3 with hl | hl
  · rw [if_neg (by simp; omega)]
    have h0 : (h ++ [t]).length - 3 = 0 := by simp; omega
    rw [h0, List.drop_zero]
  · have h3 : h.length = 3 := le_antisymm hlen hl
    rw [if_pos (by simp [h3])]
    have h1 : (h ++ [t]).length - 3 = 1 := by simp [h3]
    rw [h1, List.drop_one]

/-- Concrete state for the C2 counterexample: red history `[purple,
green]` and target `[purple, green, purple]`; scoring one more purple
completes the pattern. -/
def c2State : GState :=
  { testState with
    redHistory := [AType.purple, AType.green],
    artifacts := [Artifact.mk0 ⟨500, 700⟩ AType.purple] }

/-- C2 counterexample: scoring a purple artifact whose append completes
the target pattern changes the team's score by 25 (5 for the artifact
plus the 20-point bonus of the `checkPattern(team)` call that
`scoreArtifact` ends with), not by exactly 5, and the history afterwards
is empty rather than the 3 most recent types. -/
theorem C2_scoreArtifact_counterexample :
    ¬ ((scoreArtifact Team.red 0 patW c2State).redScore = c2State.redScore + 5)
    ∧ (scoreArtifact Team.red 0 patW c2State).redScore = 25
    ∧ (scoreArtifact Team.red 0 patW c2State).redHistory = [] := by
  refine ⟨by decide, by decide, by decide⟩

/-- C2 (amended): for every team and every unscored artifact,
`scoreArtifact(team, artifact)` sets the artifact's scored flag, adds
exactly 5 points to that team's score if the artifact's type is purple and
exactly 10 if it is green, and appends the artifact's type to that team's
history keeping at most the 3 most recent scored types in order (oldest
dropped first) — PROVIDED the history after the append does not match the
target pattern element-wise; when it does, the `checkPattern` call that
`scoreArtifact` ends with additionally awards 20 points and clears both
teams' histories (see the counterexample). -/
theorem C2_scoreArtifact_amended (team : Team) (pat : RndPat) (st : GState) (i : ℕ)
    (a : Artifact)
    (hget : st.artifacts.get? i = some a)
    (hsc : a.scored = false)
    (hlen : (st.history team).length ≤ 3)
    (hnm : patMatch ((st.history team ++ [a.type]).drop ((st.history team ++ [a.type]).length - 3))
        st.targetPattern = false) :
    (scoreArtifact team i pat st).artifacts.get? i = some { a with scored := true }
    ∧ (scoreArtifact team i pat st).score team
        = st.score team + (if a.type = AType.purple then 5 else 10)
    ∧ (∀ t2, t2 ≠ team → (scoreArtifact team i pat st).score t2 = st.score t2)
    ∧ (scoreArtifact team i pat st).history team
        = (st.history team ++ [a.type]).drop ((st.history team ++ [a.type]).length - 3)
    ∧ ((scoreArtifact team i pat st).history team).length ≤ 3
    ∧ (∀ t2, t2 ≠ team → (scoreArtifact team i pat st).history t2 = st.history t2)
    ∧ (scoreArtifact team i pat st).targetPattern = st.targetPattern := by
  have hi : i < st.artifacts.length := (List.get?_eq_some.1 hget).1
  have hset : (st.artifacts.set i { a with scored := true }).get? i
      = some { a with scored := true } := by
    rw [List.get?_eq_getElem?, List.getElem?_set_self']
    simp [List.getElem?_eq_getElem (by simpa using hi)]
  cases team with
  | red =>
    simp only [GState.history] at hlen hnm ⊢
    simp only [scoreArtifact, hget]
    rw [cappedHistory_eq_drop _ _ hlen]
    set h2 := (st.redHistory ++ [a.type]).drop ((st.redHistory ++ [a.type]).length - 3) with hh2
    have hnoop : ∀ st2 : GState, st2.redHistory = h2 → st2.targetPattern = st.targetPattern →
        checkPattern .red pat st2 = st2 := by
      intro st2 e1 e2
      rcases Nat.lt_or_ge h2.length 3 with hl | hl
      · exact checkPattern_noop_short .red pat st2 (by simpa [GState.history, e1] using hl)
      · exact checkPattern_noop_mismatch .red pat st2
          (by simp [GState.history, e1]; omega) (by simpa [GState.history, e1, e2] using hnm)
    rw [hnoop { st with
      artifacts := st.artifacts.set i { a with scored := true },
      particles := spawnParticles 20 st.particles,
      redScore := st.redScore + if a.type = AType.purple then 5 else 10,
      redHistory := h2 } rfl rfl]
    refine ⟨hset, rfl, ?_, rfl, ?_, ?_, rfl⟩
    · intro t2 ht2
      cases t2
      · exact absurd rfl ht2
      · rfl
    · simp [hh2]
      omega
    · intro t2 ht2
      cases t2
      · exact absurd rfl ht2
      · rfl
  | blue =>
    simp only [GState.history] at hlen hnm ⊢
    simp only [scoreArtifact, hget]
    rw [cappedHistory_eq_drop _ _ hlen]
    set h2 := (st.blueHistory ++ [a.type]).drop ((st.blueHistory ++ [a.type]).length - 3) with hh2
    have hnoop : ∀ st2 : GState, st2.blueHistory = h2 → st2.targetPattern = st.targetPattern →
        checkPattern .blue pat st2 = st2 := by
      intro st2 e1 e2
      rcases Nat.lt_or_ge h2.length 3 with hl | hl
      · exact checkPattern_noop_short .blue pat st2 (by simpa [GState.history, e1] using hl)
      · exact checkPattern_noop_mismatch .blue pat st2
          (by simp [GState.history, e1]; omega) (by simpa [GState.history, e1, e2] using hnm)
    rw [hnoop { st with
      artifacts := st.artifacts.set i { a with scored := true },
      particles := spawnParticles 20 st.particles,
      blueScore := st.blueScore + if a.type = AType.purple then 5 else 10,
      blueHistory := h2 } rfl rfl]
    refine ⟨hset, rfl, ?_, rfl, ?_, ?_, rfl⟩
    · intro t2 ht2
      cases t2
      · rfl
      · exact absurd rfl ht2
    · simp [hh2]
      omega
    · intro t2 ht2
      cases t2
      · rfl
      · exact absurd rfl ht2

/-- Concrete state for the C2 witness: red history `[green, green]`, so
the appended history `[green, green, purple]` does not match the target
`[purple, green, purple]`. -/
def c2bState : GState :=
  { testState with
    redHistory := [AType.green, AType.green],
    artifacts := [Artifact.mk0 ⟨500, 700⟩ AType.purple] }

theorem C2_scoreArtifact_amended_witness :
    (scoreArtifact Team.red 0 patW c2bState).artifacts.get? 0
      = some { Artifact.mk0 ⟨500, 700⟩ AType.purple with scored := true }
    ∧ (scoreArtifact Team.red 0 patW c2bState).score .red
        = c2bState.score .red
          + (if (Artifact.mk0 ⟨500, 700⟩ AType.purple).type = AType.purple then 5 else 10)
    ∧ (∀ t2, t2 ≠ Team.red →
        (scoreArtifact Team.red 0 patW c2bState).score t2 = c2bState.score t2)
    ∧ (scoreArtifact Team.red 0 patW c2bState).history .red
        = ((c2bState.history .red ++ [(Artifact.mk0 ⟨500, 700⟩ AType.purple).type]).drop
            ((c2bState.history .red ++ [(Artifact.mk0 ⟨500, 700⟩ AType.purple).type]).length - 3))
    ∧ ((scoreArtifact Team.red 0 patW c2bState).history .red).length ≤ 3
    ∧ (∀ t2, t2 ≠ Team.red →
        (scoreArtifact Team.red 0 patW c2bState).history t2 = c2bState.history t2)
    ∧ (scoreArtifact Team.red 0 patW c2bState).targetPattern = c2bState.targetPattern :=
  C2_scoreArtifact_amended Team.red patW c2bState 0 (Artifact.mk0 ⟨500, 700⟩ AType.purple)
    rfl rfl (by decide) (by decide)

-- --- FRAME LEMMAS FOR THE RUNNING STEP (used by C3, C4, C5) ---

theorem scoreArtifact_clock (team : Team) (i : ℕ) (pat : RndPat) (st : GState) :
    (scoreArtifact team i pat st).running = st.running
    ∧ (scoreArtifact team i pat st).timeLeft = st.timeLeft
    ∧ (scoreArtifact team i pat st).lastTime = st.lastTime
    ∧ (scoreArtifact team i pat st).redRobot = st.redRobot
    ∧ (scoreArtifact team i pat st).blueRobot = st.blueRobot
    ∧ (scoreArtifact team i pat st).artifacts.length = st.artifacts.length := by
  unfold scoreArtifact
  cases hg : st.artifacts.get? i with
  | none => exact ⟨rfl, rfl, rfl, rfl, rfl, rfl⟩
  | some a =>
    cases team <;>
    · refine ⟨((checkPattern_frame _ _ _).2.2.2.2.1).trans rfl,
        ((checkPattern_frame _ _ _).2.2.2.2.2.1).trans rfl,
        ((checkPattern_frame _ _ _).2.2.2.2.2.2).trans rfl,
        ((checkPattern_frame _ _ _).2.2.1).trans rfl,
        ((checkPattern_frame _ _ _).2.2.2.1).trans rfl, ?_⟩
      rw [(checkPattern_frame _ _ _).1]
      simp

theorem processOne_none (pat : RndPat) (i : ℕ) (st : GState)
    (hg : st.artifacts.get? i = none) : processOne pat i st = st := by
  unfold processOne
  rw [hg]

theorem processOne_skip (pat : RndPat) (i : ℕ) (st : GState) (a : Artifact)
    (hg : st.artifacts.get? i = some a)
    (hns : ¬ (a.held = false ∧ a.scored = false)) :
    processOne pat i st = st := by
  unfold processOne
  rw [hg]
  simp only [if_neg hns]

theorem processOne_active (pat : RndPat) (i : ℕ) (st : GState) (a : Artifact)
    (hg : st.artifacts.get? i = some a) (hfs : a.held = false ∧ a.scored = false) :
    processOne pat i st =
      (let a2 := pushFrom st.blueRobot (pushFrom st.redRobot a.update)
       let st1 := { st with artifacts := st.artifacts.set i a2 }
       if a2.pos.dist redGoalPos < GOAL_SIZE ∧ a2.scored = false then
         scoreArtifact .red i pat st1
       else if a2.pos.dist blueGoalPos < GOAL_SIZE ∧ a2.scored = false then
         scoreArtifact .blue i pat st1
       else st1) := by
  unfold processOne
  rw [hg]
  simp only [if_pos hfs]

theorem processOne_clock (pat : RndPat) (i : ℕ) (st : GState) :
    (processOne pat i st).running = st.running
    ∧ (processOne pat i st).timeLeft = st.timeLeft
    ∧ (processOne pat i st).lastTime = st.lastTime
    ∧ (processOne pat i st).redRobot = st.redRobot
    ∧ (processOne pat i st).blueRobot = st.blueRobot
    ∧ (processOne pat i st).artifacts.length = st.artifacts.length := by
  rcases hg : st.artifacts.get? i with _ | a
  · rw [processOne_none pat i st hg]
    exact ⟨rfl, rfl, rfl, rfl, rfl, rfl⟩
  · by_cases hfs : a.held = false ∧ a.scored = false
    · rw [processOne_active pat i st a hg hfs]
      dsimp only
      split
      · refine ⟨(scoreArtifact_clock _ _ _ _).1.trans rfl,
          (scoreArtifact_clock _ _ _ _).2.1.trans rfl,
          (scoreArtifact_clock _ _ _ _).2.2.1.trans rfl,
          (scoreArtifact_clock _ _ _ _).2.2.2.1.trans rfl,
          (scoreArtifact_clock _ _ _ _).2.2.2.2.1.trans rfl, ?_⟩
        rw [(scoreArtifact_clock _ _ _ _).2.2.2.2.2]
        simp
      · split
        · refine ⟨(scoreArtifact_clock _ _ _ _).1.trans rfl,
            (scoreArtifact_clock _ _ _ _).2.1.trans rfl,
            (scoreArtifact_clock _ _ _ _).2.2.1.trans rfl,
            (scoreArtifact_clock _ _ _ _).2.2.2.1.trans rfl,
            (scoreArtifact_clock _ _ _ _).2.2.2.2.1.trans rfl, ?_⟩
          rw [(scoreArtifact_clock _ _ _ _).2.2.2.2.2]
          simp
        · exact ⟨rfl, rfl, rfl, rfl, rfl, by simp⟩
    · rw [processOne_skip pat i st a hg hfs]
      exact ⟨rfl, rfl, rfl, rfl, rfl, rfl⟩

theorem processIter_clock (pats : ℕ → RndPat) (n i : ℕ) (st : GState) :
    (processIter pats n i st).running = st.running
    ∧ (processIter pats n i st).timeLeft = st.timeLeft
    ∧ (processIter pats n i st).lastTime = st.lastTime
    ∧ (processIter pats n i st).redRobot = st.redRobot
    ∧ (processIter pats n i st).blueRobot = st.blueRobot
    ∧ (processIter pats n i st).artifacts.length = st.artifacts.length := by
  induction n generalizing i st with
  | zero => exact ⟨rfl, rfl, rfl, rfl, rfl, rfl⟩
  | succ n ih =>
    have h1 := processOne_clock (pats i) i st
    have h2 := ih (i + 1) (processOne (pats i) i st)
    unfold processIter
    exact ⟨h2.1.trans h1.1, h2.2.1.trans h1.2.1, h2.2.2.1.trans h1.2.2.1,
      h2.2.2.2.1.trans h1.2.2.2.1, h2.2.2.2.2.1.trans h1.2.2.2.2.1,
      h2.2.2.2.2.2.trans h1.2.2.2.2.2⟩

theorem action_arts_length (r : Robot) (arts : List Artifact) (parts : List ℕ) :
    (Robot.action r arts parts).2.1.length = arts.length := by
  unfold Robot.action
  rcases (if r.inventory.length < MAX_INVENTORY then intakeFind r.pos arts else none) with
    _ | ⟨i, a⟩
  · rcases hinv : r.inventory with _ | ⟨j, rest⟩
    · rfl
    · dsimp only
      cases hg : arts[j]? <;> simp [hg, List.length_set]
  · simp

theorem actionPhase_arts_length (r : Robot) (k : Keys) (arts : List Artifact)
    (parts : List ℕ) :
    (Robot.actionPhase r k arts parts).2.1.length = arts.length := by
  unfold Robot.actionPhase
  split
  · exact action_arts_length _ _ _
  · rfl

theorem update_arts_length (r : Robot) (k : Keys) (arts : List Artifact)
    (parts : List ℕ) :
    (Robot.update r k arts parts).2.1.length = arts.length := by
  unfold Robot.update
  exact actionPhase_arts_length _ _ _ _

theorem processArtifacts_clock (pats : ℕ → RndPat) (st : GState) :
    (processArtifacts pats st).running = st.running
    ∧ (processArtifacts pats st).timeLeft = st.timeLeft
    ∧ (processArtifacts pats st).lastTime = st.lastTime
    ∧ (processArtifacts pats st).redRobot = st.redRobot
    ∧ (processArtifacts pats st).blueRobot = st.blueRobot
    ∧ (processArtifacts pats st).artifacts.length = st.artifacts.length := by
  unfold processArtifacts
  exact processIter_clock pats st.artifacts.length 0 st

theorem frameRest_clock (env : Env) (st : GState) :
    (frameRest env st).running = st.running
    ∧ (frameRest env st).timeLeft = st.timeLeft
    ∧ (frameRest env st).lastTime = st.lastTime
    ∧ (frameRest env st).artifacts.length = st.artifacts.length := by
  unfold frameRest
  refine ⟨(processArtifacts_clock _ _).1.trans rfl,
    (processArtifacts_clock _ _).2.1.trans rfl,
    (processArtifacts_clock _ _).2.2.1.trans rfl, ?_⟩
  rw [(processArtifacts_clock _ _).2.2.2.2.2]
  show (Robot.update _ _ _ _).2.1.length = _
  rw [update_arts_length, update_arts_length]

theorem update_run_error (env : Env) (st : GState) (h : st.running = true) (e : GState)
    (he : update env st = Except.error e) :
    e = { st with timeLeft := st.timeLeft - 1 } ∧ 1000 ≤ env.now - st.lastTime := by
  unfold update at he
  rw [h] at he
  simp only [Bool.true_eq_false, if_false] at he
  unfold updateClock at he
  by_cases hc : 1000 ≤ env.now - st.lastTime
  · rw [if_pos hc] at he
    simp only at he
    exact ⟨(Except.error.inj he).symm, hc⟩
  · rw [if_neg hc] at he
    simp only at he
    cases he

theorem update_run_ok (env : Env) (st : GState) (h : st.running = true) (s2 : GState)
    (hok : update env st = Except.ok s2) :
    s2 = frameRest env st ∧ ¬ 1000 ≤ env.now - st.lastTime := by
  unfold update at hok
  rw [h] at hok
  simp only [Bool.true_eq_false, if_false] at hok
  unfold updateClock at hok
  by_cases hc : 1000 ≤ env.now - st.lastTime
  · rw [if_pos hc] at hok
    simp only at hok
    cases hok
  · rw [if_neg hc] at hok
    simp only at hok
    exact ⟨(Except.ok.inj hok).symm, hc⟩

/-- All-keys-up input. -/
def noKeys : Keys :=
  { up := false, down := false, left := false, right := false, action := false }

/-- A fixed step environment with `Date.now() = 1000`. -/
noncomputable def envAt1000 : Env :=
  { now := 1000, space := false, redKeys := noKeys, blueKeys := noKeys,
    rnd01 := fun _ => 0, pats := fun _ => patW, startPat := patW }

-- --- C3 ---

/-- C3 (code bug): the claim says each running step decrements `timeLeft`
by 1 exactly when ≥ 1000ms of wall-clock time elapsed since the last
recorded tick, updating the last-tick timestamp at each decrement.  In the
source the `gameState.lastTime = Date.now()` statement sits (via a
misplaced brace) inside `if (gamestate.timeleft == 60000)`, whose
undeclared `gamestate` identifier throws an uncaught `ReferenceError`: at
the first second boundary the step aborts right after the decrement
(first conjunct, at a concrete input), the timestamp is left untouched
(second conjunct), and no running step — aborted or completed — ever
updates `lastTime` (last two conjuncts), so the claimed one-per-second
cadence is impossible. -/
theorem C3_timer_tick_reference_error :
    update envAt1000 testState
      = Except.error { testState with timeLeft := testState.timeLeft - 1 }
    ∧ ({ testState with timeLeft := testState.timeLeft - 1 } : GState).lastTime
        = testState.lastTime
    ∧ (∀ env st e, st.running = true → update env st = Except.error e →
        e.lastTime = st.lastTime)
    ∧ (∀ env st s2, st.running = true → update env st = Except.ok s2 →
        s2.lastTime = st.lastTime) := by
  refine ⟨rfl, rfl, ?_, ?_⟩
  · intro env st e h he
    rw [(update_run_error env st h e he).1]
  · intro env st s2 h hok
    rw [(update_run_ok env st h s2 hok).1]
    exact (frameRest_clock env st).2.2.1

theorem C3_timer_tick_reference_error_witness :
    ({ testState with timeLeft := testState.timeLeft - 1 } : GState).lastTime
      = testState.lastTime :=
  C3_timer_tick_reference_error.2.2.1 envAt1000 testState
    { testState with timeLeft := testState.timeLeft - 1 } rfl rfl

-- --- C4 ---

/-- Concrete state for C4: one second left, red leading 10 to 3. -/
def c4State : GState := { testState with timeLeft := 1, redScore := 10, blueScore := 3 }

/-- C4 (code bug): the claim says the match ends (running set false and
the winner displayed) on the step at which `timeLeft` reaches 0.  In the
source the `if (gameState.timeLeft <= 0) endGame()` check sits inside the
inner `if (gamestate.timeleft == 60000)` whose undeclared identifier
throws first: the step that brings `timeLeft` to 0 aborts with the match
still running and the message unchanged (first three conjuncts), no
running step ever clears `running` (next two conjuncts) — only the
unreachable `endGame` itself implements the claimed outcome mapping
(last conjunct). -/
theorem C4_match_end_unreachable :
    update envAt1000 c4State = Except.error { c4State with timeLeft := 0 }
    ∧ ({ c4State with timeLeft := 0 } : GState).running = true
    ∧ ({ c4State with timeLeft := 0 } : GState).message = c4State.message
    ∧ (∀ env st e, st.running = true → update env st = Except.error e →
        e.running = true)
    ∧ (∀ env st s2, st.running = true → update env st = Except.ok s2 →
        s2.running = true)
    ∧ (∀ st : GState, (endGame st).running = false
        ∧ (endGame st).message =
          (if st.redScore > st.blueScore then "RED WINS"
           else if st.blueScore > st.redScore then "BLUE WINS" else "TIE")
          ++ " - PRESS SPACE TO RESTART") := by
  refine ⟨rfl, rfl, rfl, ?_, ?_, ?_⟩
  · intro env st e h he
    rw [(update_run_error env st h e he).1]
    exact h
  · intro env st s2 h hok
    rw [(update_run_ok env st h s2 hok).1]
    rw [(frameRest_clock env st).1]
    exact h
  · intro st
    exact ⟨rfl, rfl⟩

theorem C4_match_end_unreachable_witness :
    ({ c4State with timeLeft := 0 } : GState).running = true :=
  C4_match_end_unreachable.2.2.2.1 envAt1000 c4State
    { c4State with timeLeft := 0 } rfl rfl

-- --- C5 ---

/-- Concrete state for C5: 61 seconds left, one artifact on the field;
the next tick crosses the 60-second mark. -/
def c5State : GState :=
  { testState with
    timeLeft := 61,
    artifacts := [Artifact.mk0 ⟨500, 700⟩ AType.purple] }

/-- C5 (code bug): the claim says one extra wave of 24 purple and 12
green artifacts is appended at the step at which `timeLeft` crosses 60.
In the source the wave sits inside `if (gamestate.timeleft == 60000)`:
evaluating the undeclared `gamestate` throws before anything is pushed —
the step that brings `timeLeft` to 60 aborts with the artifact collection
unchanged (first two conjuncts), and no running step, aborted or
completed, ever appends artifacts (last two conjuncts).  (Even read
charitably as `gameState.timeLeft == 60000`, the comparison of a
seconds-valued countdown from 120 against 60000 could never fire.) -/
theorem C5_second_wave_never_spawns :
    update envAt1000 c5State = Except.error { c5State with timeLeft := 60 }
    ∧ ({ c5State with timeLeft := 60 } : GState).artifacts = c5State.artifacts
    ∧ (∀ env st e, st.running = true → update env st = Except.error e →
        e.artifacts = st.artifacts)
    ∧ (∀ env st s2, st.running = true → update env st = Except.ok s2 →
        s2.artifacts.length = st.artifacts.length) := by
  refine ⟨rfl, rfl, ?_, ?_⟩
  · intro env st e h he
    rw [(update_run_error env st h e he).1]
  · intro env st s2 h hok
    rw [(update_run_ok env st h s2 hok).1]
    exact (frameRest_clock env st).2.2.2

theorem C5_second_wave_never_spawns_witness :
    ({ c5State with timeLeft := 60 } : GState).artifacts = c5State.artifacts :=
  C5_second_wave_never_spawns.2.2.1 envAt1000 c5State
    { c5State with timeLeft := 60 } rfl rfl

-- --- C6 ---

/-- Concrete robot for C6: heading angle 0 (unit heading `(1, 0)`), at
rest, holding the artifact of index 0. -/
def c6Robot : Robot :=
  { id := .red, pos := ⟨100, 700⟩, vel := ⟨0, 0⟩, angle := 0,
    inventory := [0], cooldown := 0 }

/-- The held artifact of the C6 scenario (held, so the intake scan skips
it and the action falls through to the shoot branch). -/
def c6Art : Artifact :=
  { Artifact.mk0 ⟨100, 700⟩ AType.purple with held := true, holder := some Team.red }

def c6Arts : List Artifact := [c6Art]

/-- C6 counterexample: shooting with heading angle 0 and velocity `(0,0)`
leaves the robot with velocity `(-3, 0)`: the subtracted recoil vector has
magnitude 3, not the claimed 0.2.  (`a.vel = dir.mult(15)` mutates `dir`
in place, so the recoil `this.vel.sub(dir.copy().mult(0.2))` subtracts
`heading × 15 × 0.2 = heading × 3`.) -/
theorem C6_recoil_counterexample :
    (Robot.action c6Robot c6Arts []).1.vel = Vector2.mk (-3) 0
    ∧ ((-3 : ℝ) ≠ 0 - 0.2 * 1) := by
  constructor
  · have hintake : intakeFind c6Robot.pos c6Arts = none := rfl
    unfold Robot.action
    rw [if_pos (by decide : c6Robot.inventory.length < MAX_INVENTORY), hintake]
    show Vector2.sub c6Robot.vel _ = _
    unfold Vector2.sub Vector2.mult c6Robot
    simp [Real.cos_zero, Real.sin_zero]
    norm_num
  · norm_num

/-- C6 (amended): in the shoot branch of the intake-or-shoot action, the
vector subtracted from the robot's velocity as recoil is the unit
heading-direction vector scaled by 3 — that is, by 15 × 0.2, because the
source's `a.vel = dir.mult(15)` has already scaled `dir` in place when the
recoil `dir.copy().mult(0.2)` is computed — while the released artifact's
velocity is set to heading direction times 15 (and it is repositioned at
robot position + heading × (ROBOT_SIZE + 10)). -/
theorem C6_shoot_recoil_amended (r : Robot) (arts : List Artifact) (parts : List ℕ)
    (i : ℕ) (rest : List ℕ) (a : Artifact)
    (hinv : r.inventory = i :: rest)
    (hno : MAX_INVENTORY ≤ r.inventory.length ∨ intakeFind r.pos arts = none)
    (hget : arts.get? i = some a) :
    (Robot.action r arts parts).1.vel
      = r.vel.sub ((Vector2.mk (Real.cos r.angle) (Real.sin r.angle)).mult 3)
    ∧ (Robot.action r arts parts).2.1.get? i
      = some { a with
          held := false,
          holder := none,
          pos := r.pos.add ((Vector2.mk (Real.cos r.angle) (Real.sin r.angle)).mult (ROBOT_SIZE + 10)),
          vel := (Vector2.mk (Real.cos r.angle) (Real.sin r.angle)).mult 15 } := by
  have hguard : (if r.inventory.length < MAX_INVENTORY then intakeFind r.pos arts else none)
      = none := by
    rcases hno with h | h
    · rw [if_neg (Nat.not_lt.2 h)]
    · split
      · exact h
      · rfl
  have hi : i < arts.length := (List.get?_eq_some.1 hget).1
  unfold Robot.action
  rw [hguard, hinv]
  dsimp only
  rw [hget]
  constructor
  · show Vector2.sub r.vel _ = _
    unfold Vector2.sub Vector2.mult
    simp only [Vector2.mk.injEq]
    constructor <;> ring
  · rw [List.get?_eq_getElem?, List.getElem?_set_self']
    simp [List.getElem?_eq_getElem (by simpa using hi)]

theorem C6_shoot_recoil_amended_witness :
    (Robot.action c6Robot c6Arts []).1.vel
      = c6Robot.vel.sub ((Vector2.mk (Real.cos c6Robot.angle) (Real.sin c6Robot.angle)).mult 3)
    ∧ (Robot.action c6Robot c6Arts []).2.1.get? 0
      = some { c6Art with
          held := false,
          holder := none,
          pos := c6Robot.pos.add
            ((Vector2.mk (Real.cos c6Robot.angle) (Real.sin c6Robot.angle)).mult (ROBOT_SIZE + 10)),
          vel := (Vector2.mk (Real.cos c6Robot.angle) (Real.sin c6Robot.angle)).mult 15 } :=
  C6_shoot_recoil_amended c6Robot c6Arts [] 0 [] c6Art
    rfl (Or.inr rfl) rfl

-- --- C7 ---

theorem intakeFind_none_of_far (pos : Vector2) (arts : List Artifact)
    (h : ∀ a ∈ arts,
      ¬ (a.held = false ∧ a.scored = false ∧ pos.dist a.pos < ROBOT_SIZE + 20)) :
    intakeFind pos arts = none := by
  induction arts with
  | nil => rfl
  | cons a rest ih =>
    unfold intakeFind
    rw [if_neg (h a (List.mem_cons_self a rest))]
    rw [ih (fun b hb => h b (List.mem_cons_of_mem a hb))]
    rfl

theorem movePhase_inventory (r : Robot) (k : Keys) :
    (Robot.movePhase r k).inventory = r.inventory := rfl

theorem cooldownTick_inventory (r : Robot) :
    (cooldownTick r).inventory = r.inventory := by
  unfold cooldownTick
  split <;> rfl

theorem action_inventory_le (r : Robot) (arts : List Artifact) (parts : List ℕ)
    (h : r.inventory.length ≤ MAX_INVENTORY) :
    (Robot.action r arts parts).1.inventory.length ≤ MAX_INVENTORY := by
  unfold Robot.action
  by_cases hlt : r.inventory.length < MAX_INVENTORY
  · rw [if_pos hlt]
    cases hf : intakeFind r.pos arts with
    | none =>
      rcases hinv : r.inventory with _ | ⟨j, rest⟩
      · simpa [hinv] using h
      · dsimp only
        have hlr : rest.length + 1 = r.inventory.length := by rw [hinv]; rfl
        show rest.length ≤ MAX_INVENTORY
        omega
    | some p =>
      rcases p with ⟨i, a⟩
      dsimp only
      show (r.inventory ++ [i]).length ≤ MAX_INVENTORY
      simp only [List.length_append, List.length_singleton]
      omega
  · rw [if_neg hlt]
    rcases hinv : r.inventory with _ | ⟨j, rest⟩
    · simpa [hinv] using h
    · dsimp only
      have hlr : rest.length + 1 = r.inventory.length := by rw [hinv]; rfl
      show rest.length ≤ MAX_INVENTORY
      omega

theorem update_inventory_le (r : Robot) (k : Keys) (arts : List Artifact) (parts : List ℕ)
    (h : r.inventory.length ≤ MAX_INVENTORY) :
    (Robot.update r k arts parts).1.inventory.length ≤ MAX_INVENTORY := by
  unfold Robot.update Robot.actionPhase
  split
  · rw [cooldownTick_inventory]
    show ((Robot.movePhase r k).action arts parts).1.inventory.length ≤ MAX_INVENTORY
    exact action_inventory_le _ _ _ (by rw [movePhase_inventory]; exact h)
  · rw [cooldownTick_inventory, movePhase_inventory]
    exact h

/-- C7: performing the intake-or-shoot action with an empty inventory
while no free, unscored artifact lies within `ROBOT_SIZE + 20` of the
robot leaves the robot, the artifact collection and the particles all
unchanged (the 15-frame cooldown is set by the caller `Robot.update`, not
by the action routine itself); and the inventory size never exceeds
`MAX_INVENTORY = 3` across the action and across a full robot update
(it is a `List`, so it is never negative). -/
theorem C7_empty_action_noop (r : Robot) (k : Keys) (arts : List Artifact)
    (parts : List ℕ) :
    (r.inventory = [] →
      (∀ a ∈ arts,
        ¬ (a.held = false ∧ a.scored = false ∧ r.pos.dist a.pos < ROBOT_SIZE + 20)) →
      Robot.action r arts parts = (r, arts, parts))
    ∧ (r.inventory.length ≤ MAX_INVENTORY →
        (Robot.action r arts parts).1.inventory.length ≤ MAX_INVENTORY)
    ∧ (r.inventory.length ≤ MAX_INVENTORY →
        (Robot.update r k arts parts).1.inventory.length ≤ MAX_INVENTORY) := by
  refine ⟨?_, action_inventory_le r arts parts, update_inventory_le r k arts parts⟩
  intro hinv hfar
  unfold Robot.action
  rw [if_pos (by rw [hinv]; simp [MAX_INVENTORY])]
  rw [intakeFind_none_of_far r.pos arts hfar, hinv]

/-- Concrete robot for the C7 witness: empty inventory, at `(100, 700)`. -/
def c7Robot : Robot :=
  { id := .red, pos := ⟨100, 700⟩, vel := ⟨0, 0⟩, angle := 0,
    inventory := [], cooldown := 0 }

/-- Concrete artifact for the C7 witness: free and unscored, 900 pixels
away from the robot — far outside the `ROBOT_SIZE + 20 = 60` pickup
range. -/
def c7Art : Artifact := Artifact.mk0 ⟨1000, 700⟩ AType.purple

theorem C7_empty_action_noop_witness :
    Robot.action c7Robot [c7Art] [] = (c7Robot, [c7Art], []) :=
  (C7_empty_action_noop c7Robot noKeys [c7Art] []).1 rfl (by
    intro a ha
    rw [List.mem_singleton] at ha
    subst ha
    rintro ⟨-, -, hd⟩
    revert hd
    show ¬ (Vector2.dist c7Robot.pos c7Art.pos < ROBOT_SIZE + 20)
    unfold Vector2.dist c7Robot c7Art Artifact.mk0 ROBOT_SIZE
    simp only
    have h9 : ((100 - 1000 : ℝ) ^ 2 + (700 - 700 : ℝ) ^ 2) = 900 ^ 2 := by norm_num
    rw [h9, Real.sqrt_sq (by norm_num : (0:ℝ) ≤ 900)]
    norm_num)

-- --- C9: flag-preservation lemmas ---

theorem artifactUpdate_scored_skip (a : Artifact) (h : a.scored = true) :
    a.update = a := by
  unfold Artifact.update
  rw [if_pos h]

theorem artifactUpdate_flags (a : Artifact) :
    a.update.held = a.held ∧ a.update.scored = a.scored ∧ a.update.type = a.type := by
  unfold Artifact.update
  split
  · exact ⟨rfl, rfl, rfl⟩
  · split
    · exact ⟨rfl, rfl, rfl⟩
    · exact ⟨rfl, rfl, rfl⟩

theorem pushFrom_flags (r : Robot) (a : Artifact) :
    (pushFrom r a).held = a.held ∧ (pushFrom r a).scored = a.scored
    ∧ (pushFrom r a).type = a.type := by
  unfold pushFrom
  split
  · exact ⟨rfl, rfl, rfl⟩
  · exact ⟨rfl, rfl, rfl⟩

theorem scoreArtifact_arts_none (team : Team) (i : ℕ) (pat : RndPat) (st : GState)
    (hg : st.artifacts.get? i = none) : scoreArtifact team i pat st = st := by
  unfold scoreArtifact
  rw [hg]

theorem scoreArtifact_arts (team : Team) (i : ℕ) (pat : RndPat) (st : GState)
    (a : Artifact) (hg : st.artifacts.get? i = some a) :
    (scoreArtifact team i pat st).artifacts
      = st.artifacts.set i { a with scored := true } := by
  unfold scoreArtifact
  rw [hg]
  cases team
  · exact (checkPattern_frame _ _ _).1.trans rfl
  · exact (checkPattern_frame _ _ _).1.trans rfl

theorem intakeFind_spec (pos : Vector2) (arts : List Artifact) (i : ℕ) (a : Artifact)
    (h : intakeFind pos arts = some (i, a)) :
    arts.get? i = some a ∧ a.held = false ∧ a.scored = false := by
  induction arts generalizing i with
  | nil => cases h
  | cons b rest ih =>
    unfold intakeFind at h
    by_cases hc : b.held = false ∧ b.scored = false ∧ pos.dist b.pos < ROBOT_SIZE + 20
    · rw [if_pos hc] at h
      have h2 := Option.some.inj h
      have hi : 0 = i := congrArg Prod.fst h2
      have hb : b = a := congrArg Prod.snd h2
      subst hi hb
      exact ⟨rfl, hc.1, hc.2.1⟩
    · rw [if_neg hc] at h
      cases hf : intakeFind pos rest with
      | none =>
        rw [hf] at h
        cases h
      | some p =>
        rcases p with ⟨j, b2⟩
        rw [hf] at h
        simp only [Option.map_some'] at h
        have h2 := Option.some.inj h
        have hi : j + 1 = i := congrArg Prod.fst h2
        have hb : b2 = a := congrArg Prod.snd h2
        subst hi hb
        obtain ⟨hg, hh, hs⟩ := ih j hf
        exact ⟨by simpa using hg, hh, hs⟩

-- --- C9: Robot.action case equations ---

theorem action_eq_intake (r : Robot) (arts : List Artifact) (parts : List ℕ)
    (i : ℕ) (b : Artifact) (hlt : r.inventory.length < MAX_INVENTORY)
    (hf : intakeFind r.pos arts = some (i, b)) :
    Robot.action r arts parts
      = ({ r with inventory := r.inventory ++ [i] },
         arts.set i { b with held := true, holder := some r.id },
         parts) := by
  unfold Robot.action
  rw [if_pos hlt, hf]

theorem action_eq_noop (r : Robot) (arts : List Artifact) (parts : List ℕ)
    (hguard : (if r.inventory.length < MAX_INVENTORY then intakeFind r.pos arts else none)
      = none)
    (hinv : r.inventory = []) :
    Robot.action r arts parts = (r, arts, parts) := by
  unfold Robot.action
  rw [hguard, hinv]

theorem action_eq_shoot (r : Robot) (arts : List Artifact) (parts : List ℕ)
    (i : ℕ) (rest : List ℕ)
    (hguard : (if r.inventory.length < MAX_INVENTORY then intakeFind r.pos arts else none)
      = none)
    (hinv : r.inventory = i :: rest) :
    Robot.action r arts parts
      = ({ r with
            inventory := rest,
            vel := r.vel.sub
              (((Vector2.mk (Real.cos r.angle) (Real.sin r.angle)).mult 15).mult 0.2) },
         (match arts.get? i with
          | some a => arts.set i { a with
              held := false,
              holder := none,
              pos := r.pos.add
                ((Vector2.mk (Real.cos r.angle) (Real.sin r.angle)).mult (ROBOT_SIZE + 10)),
              vel := (Vector2.mk (Real.cos r.angle) (Real.sin r.angle)).mult 15 }
          | none => arts),
         spawnParticles 5 parts) := by
  unfold Robot.action
  rw [hguard, hinv]

theorem get?_set_self {α : Type} (l : List α) (i : ℕ) (x : α) (hi : i < l.length) :
    (l.set i x).get? i = some x := by
  rw [List.get?_eq_getElem?, List.getElem?_set_self']
  simp [List.getElem?_eq_getElem hi]

-- --- C9: scored-monotonicity and state-exclusivity through the action ---

theorem action_scored_mono (r : Robot) (arts : List Artifact) (parts : List ℕ)
    (j : ℕ) (a : Artifact) (hg : arts.get? j = some a) (hs : a.scored = true) :
    ∃ a2, (Robot.action r arts parts).2.1.get? j = some a2 ∧ a2.scored = true := by
  by_cases hlt : r.inventory.length < MAX_INVENTORY
  · cases hf : intakeFind r.pos arts with
    | some p =>
      rcases p with ⟨i, b⟩
      obtain ⟨hgi, hbh, hbs⟩ := intakeFind_spec r.pos arts i b hf
      rw [action_eq_intake r arts parts i b hlt hf]
      have hij : i ≠ j := by
        intro he
        rw [he, hg] at hgi
        rw [← Option.some.inj hgi, hs] at hbs
        cases hbs
      refine ⟨a, ?_, hs⟩
      rw [List.get?_eq_getElem?, List.getElem?_set_ne hij, ← List.get?_eq_getElem?]
      exact hg
    | none =>
      rcases hinv : r.inventory with _ | ⟨i, rest⟩
      · rw [action_eq_noop r arts parts (by rw [if_pos hlt]; exact hf) hinv]
        exact ⟨a, hg, hs⟩
      · rw [action_eq_shoot r arts parts i rest (by rw [if_pos hlt]; exact hf) hinv]
        cases hgi : arts.get? i with
        | none => exact ⟨a, hg, hs⟩
        | some b =>
          by_cases hij : i = j
          · subst hij
            rw [hg] at hgi
            have hb : a = b := Option.some.inj hgi
            subst hb
            exact ⟨_, get?_set_self arts i _ (List.get?_eq_some.1 hg).1, hs⟩
          · refine ⟨a, ?_, hs⟩
            rw [List.get?_eq_getElem?, List.getElem?_set_ne hij, ← List.get?_eq_getElem?]
            exact hg
  · rcases hinv : r.inventory with _ | ⟨i, rest⟩
    · rw [action_eq_noop r arts parts (by rw [if_neg hlt]) hinv]
      exact ⟨a, hg, hs⟩
    · rw [action_eq_shoot r arts parts i rest (by rw [if_neg hlt]) hinv]
      cases hgi : arts.get? i with
      | none => exact ⟨a, hg, hs⟩
      | some b =>
        by_cases hij : i = j
        · subst hij
          rw [hg] at hgi
          have hb : a = b := Option.some.inj hgi
          subst hb
          exact ⟨_, get?_set_self arts i _ (List.get?_eq_some.1 hg).1, hs⟩
        · refine ⟨a, ?_, hs⟩
          rw [List.get?_eq_getElem?, List.getElem?_set_ne hij, ← List.get?_eq_getElem?]
          exact hg

theorem action_excl (r : Robot) (arts : List Artifact) (parts : List ℕ)
    (hex : ∀ a ∈ arts, ¬ (a.held = true ∧ a.scored = true)) :
    ∀ a2 ∈ (Robot.action r arts parts).2.1, ¬ (a2.held = true ∧ a2.scored = true) := by
  by_cases hlt : r.inventory.length < MAX_INVENTORY
  · cases hf : intakeFind r.pos arts with
    | some p =>
      rcases p with ⟨i, b⟩
      obtain ⟨hgi, hbh, hbs⟩ := intakeFind_spec r.pos arts i b hf
      rw [action_eq_intake r arts parts i b hlt hf]
      intro a2 ha2
      rcases List.mem_or_eq_of_mem_set ha2 with hmem | heq
      · exact hex a2 hmem
      · subst heq
        rintro ⟨-, habs⟩
        rw [hbs] at habs
        cases habs
    | none =>
      rcases hinv : r.inventory with _ | ⟨i, rest⟩
      · rw [action_eq_noop r arts parts (by rw [if_pos hlt]; exact hf) hinv]
        exact hex
      · rw [action_eq_shoot r arts parts i rest (by rw [if_pos hlt]; exact hf) hinv]
        cases hgi : arts.get? i with
        | none => exact hex
        | some b =>
          intro a2 ha2
          rcases List.mem_or_eq_of_mem_set ha2 with hmem | heq
          · exact hex a2 hmem
          · subst heq
            rintro ⟨habs, -⟩
            cases habs
  · rcases hinv : r.inventory with _ | ⟨i, rest⟩
    · rw [action_eq_noop r arts parts (by rw [if_neg hlt]) hinv]
      exact hex
    · rw [action_eq_shoot r arts parts i rest (by rw [if_neg hlt]) hinv]
      cases hgi : arts.get? i with
      | none => exact hex
      | some b =>
        intro a2 ha2
        rcases List.mem_or_eq_of_mem_set ha2 with hmem | heq
        · exact hex a2 hmem
        · subst heq
          rintro ⟨habs, -⟩
          cases habs

theorem get?_set_ne {α : Type} (l : List α) (i j : ℕ) (x : α) (h : i ≠ j) :
    (l.set i x).get? j = l.get? j := by
  rw [List.get?_eq_getElem?, List.getElem?_set_ne h, ← List.get?_eq_getElem?]

theorem robotUpdate_scored_mono (r : Robot) (k : Keys) (arts : List Artifact)
    (parts : List ℕ) (j : ℕ) (a : Artifact)
    (hg : arts.get? j = some a) (hs : a.scored = true) :
    ∃ a2, (Robot.update r k arts parts).2.1.get? j = some a2 ∧ a2.scored = true := by
  unfold Robot.update Robot.actionPhase
  split
  · exact action_scored_mono _ _ _ j a hg hs
  · exact ⟨a, hg, hs⟩

theorem robotUpdate_excl (r : Robot) (k : Keys) (arts : List Artifact) (parts : List ℕ)
    (hex : ∀ a ∈ arts, ¬ (a.held = true ∧ a.scored = true)) :
    ∀ a2 ∈ (Robot.update r k arts parts).2.1, ¬ (a2.held = true ∧ a2.scored = true) := by
  unfold Robot.update Robot.actionPhase
  split
  · exact action_excl _ _ _ hex
  · exact hex

theorem processOne_scored_mono (pat : RndPat) (i : ℕ) (st : GState) (j : ℕ) (a : Artifact)
    (hg : st.artifacts.get? j = some a) (hs : a.scored = true) :
    ∃ a2, (processOne pat i st).artifacts.get? j = some a2 ∧ a2.scored = true := by
  rcases hgi : st.artifacts.get? i with _ | b
  · rw [processOne_none pat i st hgi]
    exact ⟨a, hg, hs⟩
  · by_cases hfs : b.held = false ∧ b.scored = false
    · have hij : i ≠ j := by
        intro he
        rw [he, hg] at hgi
        have hab : a = b := Option.some.inj hgi
        rw [hab] at hs
        rw [hfs.2] at hs
        cases hs
      have hi : i < st.artifacts.length := (List.get?_eq_some.1 hgi).1
      rw [processOne_active pat i st b hgi hfs]
      dsimp only
      split
      · rw [scoreArtifact_arts .red i pat _ _ (get?_set_self _ i _ (by simpa using hi))]
        rw [get?_set_ne _ _ _ _ hij, get?_set_ne _ _ _ _ hij]
        exact ⟨a, hg, hs⟩
      · split
        · rw [scoreArtifact_arts .blue i pat _ _ (get?_set_self _ i _ (by simpa using hi))]
          rw [get?_set_ne _ _ _ _ hij, get?_set_ne _ _ _ _ hij]
          exact ⟨a, hg, hs⟩
        · show ∃ a2,
            (st.artifacts.set i (pushFrom st.blueRobot (pushFrom st.redRobot b.update))).get? j
              = some a2 ∧ a2.scored = true
          rw [get?_set_ne _ _ _ _ hij]
          exact ⟨a, hg, hs⟩
    · rw [processOne_skip pat i st b hgi hfs]
      exact ⟨a, hg, hs⟩

theorem processOne_excl (pat : RndPat) (i : ℕ) (st : GState)
    (hex : ∀ a ∈ st.artifacts, ¬ (a.held = true ∧ a.scored = true)) :
    ∀ a2 ∈ (processOne pat i st).artifacts, ¬ (a2.held = true ∧ a2.scored = true) := by
  rcases hgi : st.artifacts.get? i with _ | b
  · rw [processOne_none pat i st hgi]
    exact hex
  · by_cases hfs : b.held = false ∧ b.scored = false
    · have hi : i < st.artifacts.length := (List.get?_eq_some.1 hgi).1
      have hheld : (pushFrom st.blueRobot (pushFrom st.redRobot b.update)).held = false := by
        rw [(pushFrom_flags _ _).1, (pushFrom_flags _ _).1, (artifactUpdate_flags _).1]
        exact hfs.1
      rw [processOne_active pat i st b hgi hfs]
      dsimp only
      split
      · rw [scoreArtifact_arts .red i pat _ _ (get?_set_self _ i _ (by simpa using hi))]
        intro a2 ha2
        rcases List.mem_or_eq_of_mem_set ha2 with hmem | heq
        · rcases List.mem_or_eq_of_mem_set hmem with hmem2 | heq2
          · exact hex a2 hmem2
          · subst heq2
            exact fun h => absurd h.1 (ne_true_of_eq_false hheld)
        · subst heq
          exact fun h => absurd h.1 (ne_true_of_eq_false hheld)
      · split
        · rw [scoreArtifact_arts .blue i pat _ _ (get?_set_self _ i _ (by simpa using hi))]
          intro a2 ha2
          rcases List.mem_or_eq_of_mem_set ha2 with hmem | heq
          · rcases List.mem_or_eq_of_mem_set hmem with hmem2 | heq2
            · exact hex a2 hmem2
            · subst heq2
              exact fun h => absurd h.1 (ne_true_of_eq_false hheld)
          · subst heq
            exact fun h => absurd h.1 (ne_true_of_eq_false hheld)
        · intro a2 ha2
          rcases List.mem_or_eq_of_mem_set ha2 with hmem | heq
          · exact hex a2 hmem
          · subst heq
            exact fun h => absurd h.1 (ne_true_of_eq_false hheld)
    · rw [processOne_skip pat i st b hgi hfs]
      exact hex

theorem processIter_scored_mono (pats : ℕ → RndPat) (n i : ℕ) (st : GState)
    (j : ℕ) (a : Artifact) (hg : st.artifacts.get? j = some a) (hs : a.scored = true) :
    ∃ a2, (processIter pats n i st).artifacts.get? j = some a2 ∧ a2.scored = true := by
  induction n generalizing i st a with
  | zero => exact ⟨a, hg, hs⟩
  | succ n ih =>
    obtain ⟨a1, h1, hs1⟩ := processOne_scored_mono (pats i) i st j a hg hs
    exact ih (i + 1) (processOne (pats i) i st) a1 h1 hs1

theorem processIter_excl (pats : ℕ → RndPat) (n i : ℕ) (st : GState)
    (hex : ∀ a ∈ st.artifacts, ¬ (a.held = true ∧ a.scored = true)) :
    ∀ a2 ∈ (processIter pats n i st).artifacts, ¬ (a2.held = true ∧ a2.scored = true) := by
  induction n generalizing i st with
  | zero => exact hex
  | succ n ih => exact ih (i + 1) (processOne (pats i) i st) (processOne_excl (pats i) i st hex)

theorem frameRest_scored_mono (env : Env) (st : GState) (j : ℕ) (a : Artifact)
    (hg : st.artifacts.get? j = some a) (hs : a.scored = true) :
    ∃ a2, (frameRest env st).artifacts.get? j = some a2 ∧ a2.scored = true := by
  obtain ⟨a1, h1, hs1⟩ :=
    robotUpdate_scored_mono st.redRobot env.redKeys st.artifacts st.particles j a hg hs
  obtain ⟨a2, h2, hs2⟩ :=
    robotUpdate_scored_mono st.blueRobot env.blueKeys
      (st.redRobot.update env.redKeys st.artifacts st.particles).2.1
      (st.redRobot.update env.redKeys st.artifacts st.particles).2.2 j a1 h1 hs1
  unfold frameRest
  unfold processArtifacts
  exact processIter_scored_mono env.pats _ 0 _ j a2 h2 hs2

theorem frameRest_excl (env : Env) (st : GState)
    (hex : ∀ a ∈ st.artifacts, ¬ (a.held = true ∧ a.scored = true)) :
    ∀ a2 ∈ (frameRest env st).artifacts, ¬ (a2.held = true ∧ a2.scored = true) := by
  have h1 := robotUpdate_excl st.redRobot env.redKeys st.artifacts st.particles hex
  have h2 := robotUpdate_excl st.blueRobot env.blueKeys
    (st.redRobot.update env.redKeys st.artifacts st.particles).2.1
    (st.redRobot.update env.redKeys st.artifacts st.particles).2.2 h1
  unfold frameRest
  unfold processArtifacts
  exact processIter_excl env.pats _ 0 _ h2

theorem action_inventory_new (r : Robot) (arts : List Artifact) (parts : List ℕ)
    (j : ℕ) (hj : j ∈ (Robot.action r arts parts).1.inventory) :
    j ∈ r.inventory ∨ ∃ a, arts.get? j = some a ∧ a.held = false ∧ a.scored = false := by
  by_cases hlt : r.inventory.length < MAX_INVENTORY
  · cases hf : intakeFind r.pos arts with
    | some p =>
      rcases p with ⟨i, b⟩
      rw [action_eq_intake r arts parts i b hlt hf] at hj
      rcases List.mem_append.1 hj with h | h
      · exact Or.inl h
      · rw [List.mem_singleton] at h
        subst h
        obtain ⟨hgi, hbh, hbs⟩ := intakeFind_spec r.pos arts j b hf
        exact Or.inr ⟨b, hgi, hbh, hbs⟩
    | none =>
      rcases hinv : r.inventory with _ | ⟨i, rest⟩
      · rw [action_eq_noop r arts parts (by rw [if_pos hlt]; exact hf) hinv] at hj
        exact Or.inl (hinv ▸ (show j ∈ r.inventory from hj))
      · rw [action_eq_shoot r arts parts i rest (by rw [if_pos hlt]; exact hf) hinv] at hj
        exact Or.inl (List.mem_cons_of_mem i (show j ∈ rest from hj))
  · rcases hinv : r.inventory with _ | ⟨i, rest⟩
    · rw [action_eq_noop r arts parts (by rw [if_neg hlt]) hinv] at hj
      exact Or.inl (hinv ▸ (show j ∈ r.inventory from hj))
    · rw [action_eq_shoot r arts parts i rest (by rw [if_neg hlt]) hinv] at hj
      exact Or.inl (List.mem_cons_of_mem i (show j ∈ rest from hj))

/-- C9: the artifact state model.  (1) a scored artifact is left exactly
as-is by the artifact physics update; (2) an artifact that is not both
free and unscored is skipped entirely by the per-frame artifact pass
(physics, robot push and both goal checks leave the whole state
untouched); (3) the intake scan never captures a held or scored artifact:
an index newly present in an inventory after an action pointed, before
it, at a free unscored artifact; (4) the scored flag is monotone across
the whole per-frame simulation work (both robot updates with their
actions, then the artifact pass); (5) `scoreArtifact` sets its artifact's
scored flag; (6) held-and-scored never both hold: the frame's work
preserves that exclusion, so an artifact is in exactly one of
{free, held, scored} at all times. -/
theorem C9_artifact_state_invariants :
    (∀ a : Artifact, a.scored = true → a.update = a)
    ∧ (∀ (pat : RndPat) (i : ℕ) (st : GState) (a : Artifact),
        st.artifacts.get? i = some a →
        ¬ (a.held = false ∧ a.scored = false) → processOne pat i st = st)
    ∧ (∀ (r : Robot) (arts : List Artifact) (parts : List ℕ) (j : ℕ),
        j ∈ (Robot.action r arts parts).1.inventory →
        j ∈ r.inventory ∨ ∃ a, arts.get? j = some a ∧ a.held = false ∧ a.scored = false)
    ∧ (∀ (env : Env) (st : GState) (j : ℕ) (a : Artifact),
        st.artifacts.get? j = some a → a.scored = true →
        ∃ a2, (frameRest env st).artifacts.get? j = some a2 ∧ a2.scored = true)
    ∧ (∀ (team : Team) (i : ℕ) (pat : RndPat) (st : GState) (a : Artifact),
        st.artifacts.get? i = some a →
        (scoreArtifact team i pat st).artifacts.get? i = some { a with scored := true })
    ∧ (∀ (env : Env) (st : GState),
        (∀ a ∈ st.artifacts, ¬ (a.held = true ∧ a.scored = true)) →
        ∀ a2 ∈ (frameRest env st).artifacts, ¬ (a2.held = true ∧ a2.scored = true)) := by
  refine ⟨artifactUpdate_scored_skip, ?_, action_inventory_new, frameRest_scored_mono,
    ?_, frameRest_excl⟩
  · intro pat i st a hg hns
    exact processOne_skip pat i st a hg hns
  · intro team i pat st a hg
    rw [scoreArtifact_arts team i pat st a hg]
    exact get?_set_self _ i _ (List.get?_eq_some.1 hg).1

/-- Concrete scored artifact for the C9 witness. -/
def c9Art : Artifact :=
  { Artifact.mk0 ⟨500, 700⟩ AType.purple with scored := true }

/-- Concrete running state for the C9 witness: one scored artifact. -/
def c9State : GState := { testState with artifacts := [c9Art] }

theorem C9_artifact_state_invariants_witness :
    c9Art.update = c9Art
    ∧ (∀ a2 ∈ (frameRest envAt1000 c9State).artifacts,
        ¬ (a2.held = true ∧ a2.scored = true)) :=
  ⟨C9_artifact_state_invariants.1 c9Art rfl,
   C9_artifact_state_invariants.2.2.2.2.2 envAt1000 c9State (by
     intro a ha
     rw [show c9State.artifacts = [c9Art] from rfl, List.mem_singleton] at ha
     subst ha
     rintro ⟨h1, -⟩
     cases h1)⟩

end DecodeSim
